import Mathlib

/-!
Shallow embedding of the Pure-JS-3D-Renderer core (`src/3d_renderer main.js`)
and verification of the frozen specification claims.

Modelling conventions:
* JS numbers are modelled by `ℝ` (real arithmetic, the idealisation of the
  float computations); the color utility, whose arithmetic is rational and
  whose output is a hex string, is modelled over `ℚ` so that concrete color
  values are decidable.
* The flat 16-element `Matrix4.elements` array is a structure with fields
  `e0` … `e15`, matching the JS array indices one for one.
* JS array indexing `a[i]` that can fall off the end (`undefined`, and a
  `TypeError` as soon as a property of the result is read) is modelled with
  `List.getElem?` / `Option`; a render that would throw is `none`.
* `Array.prototype.sort` with the comparator `(a, b) => a.depth - b.depth`
  produces a stable, sorted permutation of its input (ECMA-262); it is
  modelled with `List.insertionSort`, which is likewise a stable sort.
-/

namespace Renderer

/- ============================================
   VECTOR3 - 3D vector mathematics
   ============================================ -/

/-- `class Vector3`: three real components. -/
structure Vector3 where
  x : ℝ
  y : ℝ
  z : ℝ

namespace Vector3

/-- `add(v)`. -/
def add (a v : Vector3) : Vector3 := ⟨a.x + v.x, a.y + v.y, a.z + v.z⟩

/-- `subtract(v)`. -/
def subtract (a v : Vector3) : Vector3 := ⟨a.x - v.x, a.y - v.y, a.z - v.z⟩

/-- `scale(s)`. -/
def scale (a : Vector3) (s : ℝ) : Vector3 := ⟨a.x * s, a.y * s, a.z * s⟩

/-- `dot(v)`. -/
def dot (a v : Vector3) : ℝ := a.x * v.x + a.y * v.y + a.z * v.z

/-- `cross(v)`. -/
def cross (a v : Vector3) : Vector3 :=
  ⟨a.y * v.z - a.z * v.y, a.z * v.x - a.x * v.z, a.x * v.y - a.y * v.x⟩

/-- `magnitude()`: `Math.sqrt(x*x + y*y + z*z)`. -/
noncomputable def magnitude (a : Vector3) : ℝ := Real.sqrt (a.x * a.x + a.y * a.y + a.z * a.z)

/-- `normalize()`: returns the zero vector when the magnitude is `0`,
otherwise `scale (1 / mag)`. -/
noncomputable def normalize (a : Vector3) : Vector3 :=
  if a.magnitude = 0 then ⟨0, 0, 0⟩ else a.scale (1 / a.magnitude)

/-- `distanceTo(v)`. -/
noncomputable def distanceTo (a v : Vector3) : ℝ := (a.subtract v).magnitude

/-- `lerp(v, t)`. -/
def lerp (a v : Vector3) (t : ℝ) : Vector3 :=
  ⟨a.x + (v.x - a.x) * t, a.y + (v.y - a.y) * t, a.z + (v.z - a.z) * t⟩

/-- Componentwise closeness within a tolerance `ε` ("within floating
tolerance" in the spec's scenarios). -/
def close (a b : Vector3) (ε : ℝ) : Prop :=
  |a.x - b.x| ≤ ε ∧ |a.y - b.y| ≤ ε ∧ |a.z - b.z| ≤ ε

end Vector3

/- ============================================
   MATRIX4 - 4x4 matrix, flat 16-element array
   ============================================ -/

/-- `class Matrix4`: the 16-slot `elements` array, one field per index. -/
structure Matrix4 where
  e0 : ℝ
  e1 : ℝ
  e2 : ℝ
  e3 : ℝ
  e4 : ℝ
  e5 : ℝ
  e6 : ℝ
  e7 : ℝ
  e8 : ℝ
  e9 : ℝ
  e10 : ℝ
  e11 : ℝ
  e12 : ℝ
  e13 : ℝ
  e14 : ℝ
  e15 : ℝ

namespace Matrix4

/-- `new Matrix4()` / `_identity()`: the identity element array. -/
def identity : Matrix4 :=
  ⟨1, 0, 0, 0,
   0, 1, 0, 0,
   0, 0, 1, 0,
   0, 0, 0, 1⟩

/-- `multiply(m)`: `result[i*4+j] = Σₖ a[i*4+k] * b[k*4+j]`, the source's
double loop written out entry by entry. -/
def multiply (a b : Matrix4) : Matrix4 where
  e0 := a.e0 * b.e0 + a.e1 * b.e4 + a.e2 * b.e8 + a.e3 * b.e12
  e1 := a.e0 * b.e1 + a.e1 * b.e5 + a.e2 * b.e9 + a.e3 * b.e13
  e2 := a.e0 * b.e2 + a.e1 * b.e6 + a.e2 * b.e10 + a.e3 * b.e14
  e3 := a.e0 * b.e3 + a.e1 * b.e7 + a.e2 * b.e11 + a.e3 * b.e15
  e4 := a.e4 * b.e0 + a.e5 * b.e4 + a.e6 * b.e8 + a.e7 * b.e12
  e5 := a.e4 * b.e1 + a.e5 * b.e5 + a.e6 * b.e9 + a.e7 * b.e13
  e6 := a.e4 * b.e2 + a.e5 * b.e6 + a.e6 * b.e10 + a.e7 * b.e14
  e7 := a.e4 * b.e3 + a.e5 * b.e7 + a.e6 * b.e11 + a.e7 * b.e15
  e8 := a.e8 * b.e0 + a.e9 * b.e4 + a.e10 * b.e8 + a.e11 * b.e12
  e9 := a.e8 * b.e1 + a.e9 * b.e5 + a.e10 * b.e9 + a.e11 * b.e13
  e10 := a.e8 * b.e2 + a.e9 * b.e6 + a.e10 * b.e10 + a.e11 * b.e14
  e11 := a.e8 * b.e3 + a.e9 * b.e7 + a.e10 * b.e11 + a.e11 * b.e15
  e12 := a.e12 * b.e0 + a.e13 * b.e4 + a.e14 * b.e8 + a.e15 * b.e12
  e13 := a.e12 * b.e1 + a.e13 * b.e5 + a.e14 * b.e9 + a.e15 * b.e13
  e14 := a.e12 * b.e2 + a.e13 * b.e6 + a.e14 * b.e10 + a.e15 * b.e14
  e15 := a.e12 * b.e3 + a.e13 * b.e7 + a.e14 * b.e11 + a.e15 * b.e15

/-- `translate(x, y, z)`: overwrites slots 12, 13, 14 of the current
elements in place and returns the matrix. -/
def translate (m : Matrix4) (x y z : ℝ) : Matrix4 :=
  { m with e12 := x, e13 := y, e14 := z }

/-- `static rotationX(angle)`: identity with slots 5, 6, 9, 10 set. -/
noncomputable def rotationX (angle : ℝ) : Matrix4 :=
  { identity with
    e5 := Real.cos angle
    e6 := -Real.sin angle
    e9 := Real.sin angle
    e10 := Real.cos angle }

/-- `static rotationY(angle)`: identity with slots 0, 2, 8, 10 set. -/
noncomputable def rotationY (angle : ℝ) : Matrix4 :=
  { identity with
    e0 := Real.cos angle
    e2 := Real.sin angle
    e8 := -Real.sin angle
    e10 := Real.cos angle }

/-- `static rotationZ(angle)`: identity with slots 0, 1, 4, 5 set. -/
noncomputable def rotationZ (angle : ℝ) : Matrix4 :=
  { identity with
    e0 := Real.cos angle
    e1 := -Real.sin angle
    e4 := Real.sin angle
    e5 := Real.cos angle }

/-- `static scale(sx, sy, sz)`: identity with slots 0, 5, 10 set. -/
def scale (sx sy sz : ℝ) : Matrix4 :=
  { identity with e0 := sx, e5 := sy, e10 := sz }

/-- `transformVector(v)`: exactly the source's three linear combinations
`e[0]x + e[4]y + e[8]z + e[12]` and so on (the point is applied with an
implicit homogeneous `w = 1`). -/
def transformVector (m : Matrix4) (v : Vector3) : Vector3 :=
  ⟨m.e0 * v.x + m.e4 * v.y + m.e8 * v.z + m.e12,
   m.e1 * v.x + m.e5 * v.y + m.e9 * v.z + m.e13,
   m.e2 * v.x + m.e6 * v.y + m.e10 * v.z + m.e14⟩

/-- The homogeneous `w` output of the matrix action: `transformVector`
extends each of its three rows with one more linear combination,
`e[3]x + e[7]y + e[11]z + e[15]`, which the source leaves implicit because
it is always `1`. -/
def homogeneousW (m : Matrix4) (v : Vector3) : ℝ :=
  m.e3 * v.x + m.e7 * v.y + m.e11 * v.z + m.e15

/-- The bottom row of the 4x4 matrix in the layout in which
`transformVector` applies it to a point: the translation lives in slots
12-14 (the spec's "translation column"), so the represented affine matrix
is stored column-major and its bottom row consists of slots 3, 7, 11, 15. -/
def bottomRow (m : Matrix4) : ℝ × ℝ × ℝ × ℝ := (m.e3, m.e7, m.e11, m.e15)

/-- The matrices reachable through the provided constructors: a fresh
`new Matrix4()` (identity), the static `rotationX/Y/Z` and `scale`
constructors, and `translate` applied to such a matrix. -/
inductive Constructed : Matrix4 → Prop
  | identity : Constructed identity
  | rotationX (angle : ℝ) : Constructed (rotationX angle)
  | rotationY (angle : ℝ) : Constructed (rotationY angle)
  | rotationZ (angle : ℝ) : Constructed (rotationZ angle)
  | scale (sx sy sz : ℝ) : Constructed (scale sx sy sz)
  | translate (m : Matrix4) (x y z : ℝ) :
      Constructed m → Constructed (m.translate x y z)

end Matrix4

/-- Modelled from the spec: the standard right-handed rotation about the X
axis — a positive angle rotates counter-clockwise when viewed from the
positive axis toward the origin (`y ↦ cos·y − sin·z`, `z ↦ sin·y + cos·z`).
Stated for comparison with what `rotationX`/`transformVector` actually
compute. -/
noncomputable def specRotationX (angle : ℝ) (v : Vector3) : Vector3 :=
  ⟨v.x,
   Real.cos angle * v.y - Real.sin angle * v.z,
   Real.sin angle * v.y + Real.cos angle * v.z⟩

/-- Modelled from the spec: the standard right-handed rotation about the Y
axis (`x ↦ cos·x + sin·z`, `z ↦ −sin·x + cos·z`; at +90° it takes
`(100, 100, 100)` to `(100, 100, −100)` as the spec's scenario expects). -/
noncomputable def specRotationY (angle : ℝ) (v : Vector3) : Vector3 :=
  ⟨Real.cos angle * v.x + Real.sin angle * v.z,
   v.y,
   -Real.sin angle * v.x + Real.cos angle * v.z⟩

/-- Modelled from the spec: the standard right-handed rotation about the Z
axis (`x ↦ cos·x − sin·y`, `y ↦ sin·x + cos·y`). -/
noncomputable def specRotationZ (angle : ℝ) (v : Vector3) : Vector3 :=
  ⟨Real.cos angle * v.x - Real.sin angle * v.y,
   Real.sin angle * v.x + Real.cos angle * v.y,
   v.z⟩

/- ============================================
   SHAPE GENERATORS
   ============================================ -/

/-- A generated mesh: `{ vertices, edges, faces, name }` (the axes mesh
additionally carries per-edge colors). -/
structure Mesh where
  vertices : List Vector3
  edges : List (ℕ × ℕ)
  faces : List (List ℕ)
  colors : List String := []
  name : String

namespace Shapes

/-- `Shapes.cube(size = 100)`. -/
def cube (size : ℝ := 100) : Mesh where
  vertices :=
    [⟨size, size, size⟩, ⟨-size, size, size⟩, ⟨-size, -size, size⟩,
     ⟨size, -size, size⟩, ⟨size, size, -size⟩, ⟨-size, size, -size⟩,
     ⟨-size, -size, -size⟩, ⟨size, -size, -size⟩]
  edges :=
    [(0, 1), (1, 2), (2, 3), (3, 0),
     (4, 5), (5, 6), (6, 7), (7, 4),
     (0, 4), (1, 5), (2, 6), (3, 7)]
  faces :=
    [[0, 1, 2, 3], [4, 5, 6, 7], [0, 4, 7, 3],
     [1, 5, 6, 2], [0, 1, 5, 4], [3, 2, 6, 7]]
  name := "Cube"

/-- `Shapes.tetrahedron(size = 100)`. -/
def tetrahedron (size : ℝ := 100) : Mesh where
  vertices :=
    [⟨size, size, size⟩, ⟨size, -size, -size⟩,
     ⟨-size, size, -size⟩, ⟨-size, -size, size⟩]
  edges := [(0, 1), (0, 2), (0, 3), (1, 2), (2, 3), (3, 1)]
  faces := [[0, 1, 2], [0, 2, 3], [0, 3, 1], [1, 3, 2]]
  name := "Tetrahedron"

/-- `Shapes.octahedron(size = 100)`. -/
def octahedron (size : ℝ := 100) : Mesh where
  vertices :=
    [⟨0, size, 0⟩, ⟨0, -size, 0⟩, ⟨size, 0, 0⟩,
     ⟨-size, 0, 0⟩, ⟨0, 0, size⟩, ⟨0, 0, -size⟩]
  edges :=
    [(0, 2), (0, 3), (0, 4), (0, 5),
     (1, 2), (1, 3), (1, 4), (1, 5),
     (2, 4), (4, 3), (3, 5), (5, 2)]
  faces :=
    [[0, 4, 2], [0, 2, 5], [0, 5, 3], [0, 3, 4],
     [1, 2, 4], [1, 5, 2], [1, 3, 5], [1, 4, 3]]
  name := "Octahedron"

/-- `Shapes.pyramid(size = 100, height = 150)`. -/
def pyramid (size : ℝ := 100) (height : ℝ := 150) : Mesh where
  vertices :=
    [⟨0, height, 0⟩, ⟨size, 0, size⟩, ⟨-size, 0, size⟩,
     ⟨-size, 0, -size⟩, ⟨size, 0, -size⟩]
  edges :=
    [(0, 1), (0, 2), (0, 3), (0, 4),
     (1, 2), (2, 3), (3, 4), (4, 1)]
  faces := [[0, 1, 2], [0, 2, 3], [0, 3, 4], [0, 4, 1], [1, 4, 3, 2]]
  name := "Pyramid"

/-- `Shapes.prism(size = 80, length = 150)`. -/
noncomputable def prism (size : ℝ := 80) (length : ℝ := 150) : Mesh :=
  let l := length / 2
  let h := size * Real.sqrt 3 / 2
  { vertices :=
      [⟨0, h, l⟩, ⟨-size, -h / 2, l⟩, ⟨size, -h / 2, l⟩,
       ⟨0, h, -l⟩, ⟨-size, -h / 2, -l⟩, ⟨size, -h / 2, -l⟩]
    edges :=
      [(0, 1), (1, 2), (2, 0),
       (3, 4), (4, 5), (5, 3),
       (0, 3), (1, 4), (2, 5)]
    faces := [[0, 1, 2], [3, 5, 4], [0, 3, 4, 1], [1, 4, 5, 2], [2, 5, 3, 0]]
    name := "Prism" }

/-- `Shapes.dodecahedron(size = 60)`: golden-ratio construction with
`a = size`, `b = size / φ`, `c = size * φ` and a fixed 30-entry edge list. -/
noncomputable def dodecahedron (size : ℝ := 60) : Mesh :=
  let phi := (1 + Real.sqrt 5) / 2
  let a := size
  let b := size / phi
  let c := size * phi
  { vertices :=
      [⟨a, a, a⟩, ⟨a, a, -a⟩, ⟨a, -a, a⟩, ⟨a, -a, -a⟩,
       ⟨-a, a, a⟩, ⟨-a, a, -a⟩, ⟨-a, -a, a⟩, ⟨-a, -a, -a⟩,
       ⟨0, b, c⟩, ⟨0, b, -c⟩, ⟨0, -b, c⟩, ⟨0, -b, -c⟩,
       ⟨c, 0, b⟩, ⟨c, 0, -b⟩, ⟨-c, 0, b⟩, ⟨-c, 0, -b⟩,
       ⟨b, c, 0⟩, ⟨b, -c, 0⟩, ⟨-b, c, 0⟩, ⟨-b, -c, 0⟩]
    edges :=
      [(0, 8), (0, 12), (0, 16), (1, 9), (1, 13),
       (1, 16), (2, 10), (2, 12), (2, 17), (3, 11),
       (3, 13), (3, 17), (4, 8), (4, 14), (4, 18),
       (5, 9), (5, 15), (5, 18), (6, 10), (6, 14),
       (6, 19), (7, 11), (7, 15), (7, 19), (11, 9),
       (10, 8), (15, 14), (13, 12), (16, 18), (17, 19)]
    faces := []
    name := "Dodecahedron" }

/-- `Shapes.torus(majorRadius = 80, minorRadius = 30, majorSegments = 16,
minorSegments = 8)`: one vertex per `(i, j)` sample and, per sample, one
edge to the next minor-ring sample and one to the next major-ring sample,
indices wrapped with `%` so the rings close. -/
noncomputable def torus (majorRadius : ℝ := 80) (minorRadius : ℝ := 30)
    (majorSegments : ℕ := 16) (minorSegments : ℕ := 8) : Mesh where
  vertices :=
    (List.range majorSegments).flatMap fun (i : ℕ) =>
      (List.range minorSegments).map fun (j : ℕ) =>
        let theta := ((i : ℝ) / (majorSegments : ℝ)) * Real.pi * 2
        let phi := ((j : ℝ) / (minorSegments : ℝ)) * Real.pi * 2
        ⟨(majorRadius + minorRadius * Real.cos phi) * Real.cos theta,
         minorRadius * Real.sin phi,
         (majorRadius + minorRadius * Real.cos phi) * Real.sin theta⟩
  edges :=
    (List.range majorSegments).flatMap fun i =>
      (List.range minorSegments).flatMap fun j =>
        let current := i * minorSegments + j
        let nextJ := i * minorSegments + (j + 1) % minorSegments
        let nextI := (i + 1) % majorSegments * minorSegments + j
        [(current, nextJ), (current, nextI)]
  faces := []
  name := "Torus"

/-- `Shapes.sphere(radius = 100, segments = 12)`: latitude rings
`0 … segments` (inclusive) of `segments` longitude samples each; the
`lat < segments` guard on the downward edge is kept exactly as written. -/
noncomputable def sphere (radius : ℝ := 100) (segments : ℕ := 12) : Mesh where
  vertices :=
    (List.range (segments + 1)).flatMap fun (lat : ℕ) =>
      (List.range segments).map fun (lon : ℕ) =>
        let theta := ((lat : ℝ) / (segments : ℝ)) * Real.pi
        let phi := ((lon : ℝ) / (segments : ℝ)) * Real.pi * 2
        ⟨radius * Real.sin theta * Real.cos phi,
         radius * Real.cos theta,
         radius * Real.sin theta * Real.sin phi⟩
  edges :=
    (List.range segments).flatMap fun lat =>
      (List.range segments).flatMap fun lon =>
        let current := lat * segments + lon
        let next := lat * segments + (lon + 1) % segments
        let below := (lat + 1) * segments + lon
        (current, next) :: (if lat < segments then [(current, below)] else [])
  faces := []
  name := "Sphere"

/-- `Shapes.axes(length = 200)`. -/
def axes (length : ℝ := 200) : Mesh where
  vertices := [⟨0, 0, 0⟩, ⟨length, 0, 0⟩, ⟨0, length, 0⟩, ⟨0, 0, length⟩]
  edges := [(0, 1), (0, 2), (0, 3)]
  faces := []
  colors := ["#ff4444", "#44ff44", "#4444ff"]
  name := "Axes"

/-- `Shapes.grid(size = 200, divisions = 10)`: per division step, two
vertices and one edge along Z, then two vertices and one edge along X,
with the running index `idx` advanced by 2 after each pair. -/
noncomputable def grid (size : ℝ := 200) (divisions : ℕ := 10) : Mesh :=
  let step := size / (divisions : ℝ)
  let half := size / 2
  { vertices :=
      (List.range (divisions + 1)).flatMap fun (i : ℕ) =>
        let pos := -half + (i : ℝ) * step
        [⟨pos, 0, -half⟩, ⟨pos, 0, half⟩, ⟨-half, 0, pos⟩, ⟨half, 0, pos⟩]
    edges :=
      (List.range (divisions + 1)).flatMap fun i =>
        [(4 * i, 4 * i + 1), (4 * i + 2, 4 * i + 3)]
    faces := []
    name := "Grid" }

/-- The property names of the `Shapes` object literal, i.e. the shape set
used by the case-insensitive `setShape` lookup. -/
def shapeKeys : List String :=
  ["cube", "tetrahedron", "octahedron", "pyramid", "prism",
   "dodecahedron", "torus", "sphere", "axes", "grid"]

end Shapes

/- ============================================
   COLOR UTILITIES (exact rational arithmetic)
   ============================================ -/

namespace ColorUtils

/-- JS truncating division result, sign of the dividend: `Math.trunc`. -/
def jsTrunc (q : ℚ) : ℤ := if 0 ≤ q then Rat.floor q else Rat.ceil q

/-- The JS `%` remainder operator on numbers: `a - b * trunc(a / b)`
(result carries the sign of the dividend). -/
def jsMod (a b : ℚ) : ℚ := a - b * (jsTrunc (a / b) : ℚ)

/-- `Math.round`: floor of `x + 1/2` (also for negative arguments). -/
def jsRound (q : ℚ) : ℤ := Rat.floor (q + 1 / 2)

/-- Hexadecimal digit string of a natural number, lowercase, as produced by
`Number.prototype.toString(16)` on a non-negative integer. -/
def natHexStr (n : ℕ) : String := String.mk (Nat.toDigits 16 n)

/-- `String.prototype.padStart(2, '0')`. -/
def padStart2 (s : String) : String :=
  String.mk (List.replicate (2 - s.length) '0') ++ s

/-- `toString(16).padStart(2, '0')` on a (possibly negative) integer:
negative values print as a minus sign followed by the hex digits. -/
def byteHex (i : ℤ) : String :=
  padStart2 (if i < 0 then "-" ++ natHexStr i.natAbs else natHexStr i.natAbs)

/-- `ColorUtils.hslToHex(h, s, l)`: the source's channel function
`f(n)` with `k = (n + h/30) % 12`,
`color = l - a * max(min(k - 3, 9 - k, 1), -1)`, rounded to a byte and
hex-printed; output is `"#" + f(0) + f(8) + f(4)`. -/
def hslToHex (h s l : ℚ) : String :=
  let s' := s / 100
  let l' := l / 100
  let a := s' * min l' (1 - l')
  let f : ℚ → String := fun n =>
    let k := jsMod (n + h / 30) 12
    let color := l' - a * max (min (min (k - 3) (9 - k)) 1) (-1)
    byteHex (jsRound (255 * color))
  "#" ++ f 0 ++ f 8 ++ f 4

/-- `ColorUtils.depthColor(z, minZ = -200, maxZ = 200)`: normalizes `z`
against the bounds (no clamping), maps to hue `200 + n * 60` and lightness
`30 + n * 40`, and delegates to `hslToHex` with saturation `80`. -/
def depthColor (z : ℚ) (minZ : ℚ := -200) (maxZ : ℚ := 200) : String :=
  let normalized := (z - minZ) / (maxZ - minZ)
  let hue := 200 + normalized * 60
  let lightness := 30 + normalized * 40
  hslToHex hue 80 lightness

end ColorUtils

/- ============================================
   RENDERER3D ENGINE STATE AND OPERATIONS
   ============================================ -/

/-- The `_transform` snapshot `{ rotation, translation, scale }`. -/
structure TransformSnapshot where
  rotation : Vector3
  translation : Vector3
  scl : Vector3

/-- The named parameters of `transform({...})`, with the source's default
values. -/
structure TransformParams where
  rotationX : ℝ := 0
  rotationY : ℝ := 0
  rotationZ : ℝ := 0
  translateX : ℝ := 0
  translateY : ℝ := 0
  translateZ : ℝ := 0
  scaleX : ℝ := 1
  scaleY : ℝ := 1
  scaleZ : ℝ := 1

/-- The result object of `_projectVertex`: `{ x, y, scale, z }`. -/
structure Projected where
  x : ℝ
  y : ℝ
  scl : ℝ
  z : ℝ

/-- The engine state of `class Renderer3D` that the claims touch:
`_focalLength`, `_shape`, `_transformedVertices` and the `_transform`
snapshot. (The canvas handle and the `_settings` record are external
collaborators mutated by the caller and play no role in the claims.) -/
structure Renderer3D where
  focalLength : ℝ
  shape : Mesh
  transformedVertices : List Vector3
  snapshot : TransformSnapshot

/-- The constructor's initial state: focal length 3000, the default
`Shapes.cube(100)` mesh, and an empty transformed-vertex cache. -/
def Renderer3D.init : Renderer3D where
  focalLength := 3000
  shape := Shapes.cube 100
  transformedVertices := []
  snapshot := ⟨⟨0, 0, 0⟩, ⟨0, 0, 0⟩, ⟨1, 1, 1⟩⟩

namespace Renderer3D

/-- `shapeName.toLowerCase()` for the ASCII shape names: characterwise
`Char.toLower` (kernel-reducible, unlike `String.toLower`). -/
def jsToLowerCase (s : String) : String := String.mk (s.data.map Char.toLower)

/-- Lookup among the OWN properties of the `Shapes` object literal — the
ten generator functions — followed by the generator call with the given
positional arguments (missing arguments fall back to the generator's
defaults, as JS default parameters do); `none` when the name is not an own
key of `Shapes`. The JS expression `Shapes[name]` additionally sees the
properties `Shapes` inherits from `Object.prototype`; that full lookup is
modelled by `shapesGet` below. Segment-count arguments are natural numbers
in every generator signature; `⌈·⌉₊` recovers the iteration count of the
JS `for` loops for such an argument. -/
noncomputable def dispatch (name : String) (args : List ℝ) : Option Mesh :=
  if name = "cube" then some (Shapes.cube (args.getD 0 100))
  else if name = "tetrahedron" then some (Shapes.tetrahedron (args.getD 0 100))
  else if name = "octahedron" then some (Shapes.octahedron (args.getD 0 100))
  else if name = "pyramid" then
    some (Shapes.pyramid (args.getD 0 100) (args.getD 1 150))
  else if name = "prism" then
    some (Shapes.prism (args.getD 0 80) (args.getD 1 150))
  else if name = "dodecahedron" then some (Shapes.dodecahedron (args.getD 0 60))
  else if name = "torus" then
    some (Shapes.torus (args.getD 0 80) (args.getD 1 30)
      ⌈args.getD 2 16⌉₊ ⌈args.getD 3 8⌉₊)
  else if name = "sphere" then
    some (Shapes.sphere (args.getD 0 100) ⌈args.getD 1 12⌉₊)
  else if name = "axes" then some (Shapes.axes (args.getD 0 200))
  else if name = "grid" then
    some (Shapes.grid (args.getD 0 200) ⌈args.getD 1 10⌉₊)
  else none

/-- The own-generator path of `setShape(shapeName, ...args)`: on a
case-insensitive hit in the generator table the active mesh is replaced
wholesale (nothing else changes) and the flag is `false`; the `none`
branch (flag `true`) is the `console.warn` path taken when the lookup
found no own generator. The full JS behaviour of `setShape`, including the
two `Object.prototype` properties that the bracket lookup also reaches, is
modelled by `setShapeJS`; the two coincide on every generator hit and on
every name that misses the prototype chain as well. -/
noncomputable def setShape (st : Renderer3D) (shapeName : String)
    (args : List ℝ) : Renderer3D × Bool :=
  match dispatch (jsToLowerCase shapeName) args with
  | some mesh => ({ st with shape := mesh }, false)
  | none => (st, true)

/-- The result of the full JS property lookup `Shapes[name]` for an
already-lowercased `name`. Own properties are the ten generators
(`shapeFn`, already applied to the call's arguments). An object literal
also inherits from `Object.prototype`, and of its properties exactly two
survive `toLowerCase` (every other inherited name, such as `toString` or
`hasOwnProperty`, contains an upper-case letter and can never be produced
by the lowercasing): `constructor` — the `Object` function, truthy and
callable — and the `__proto__` accessor — the `Object.prototype` object,
truthy but not callable. Every remaining name is absent and the lookup
yields `undefined` (`undef`). -/
inductive PropLookup where
  | shapeFn (m : Mesh)
  | protoConstructor
  | protoObject
  | undef

/-- The full JS lookup `Shapes[name]` (own properties first, then the
prototype chain), with a generator hit already applied to `args`. -/
noncomputable def shapesGet (name : String) (args : List ℝ) : PropLookup :=
  match dispatch name args with
  | some m => PropLookup.shapeFn m
  | none =>
    if name = "constructor" then PropLookup.protoConstructor
    else if name = "__proto__" then PropLookup.protoObject
    else PropLookup.undef

/-- The observable effect of one `setShape` call under the full JS lookup
semantics. `replacedJunk` records the `constructor` case: the inherited
`Object` function passes the `if (shapeCreator)` truthiness guard, so
`this._shape = shapeCreator(...args)` assigns `Object(...args)` — a value
that is not a mesh, taking the engine outside the `Renderer3D` data model
— and no diagnostic is emitted. `typeError` records the `__proto__` case:
the looked-up `Object.prototype` is truthy but not callable, so the call
throws a `TypeError` (fatal, no `console.warn`, no assignment).
`warnedUnchanged` is the only branch that fires `console.warn`; it carries
the untouched state. -/
inductive SetShapeEffect where
  | replacedMesh (next : Renderer3D)
  | replacedJunk
  | typeError
  | warnedUnchanged (next : Renderer3D)

/-- `setShape(shapeName, ...args)` under the full JS lookup semantics:
`const shapeCreator = Shapes[shapeName.toLowerCase()]` followed by the
truthiness guard, the call, and the assignment — or the `console.warn`
branch. -/
noncomputable def setShapeJS (st : Renderer3D) (shapeName : String)
    (args : List ℝ) : SetShapeEffect :=
  match shapesGet (jsToLowerCase shapeName) args with
  | PropLookup.shapeFn m => SetShapeEffect.replacedMesh { st with shape := m }
  | PropLookup.protoConstructor => SetShapeEffect.replacedJunk
  | PropLookup.protoObject => SetShapeEffect.typeError
  | PropLookup.undef => SetShapeEffect.warnedUnchanged st

/-- The `focalLength` setter: `Math.max(1, value)`. -/
noncomputable def setFocalLength (st : Renderer3D) (value : ℝ) : Renderer3D :=
  { st with focalLength := max 1 value }

/-- `transform({...})`: degrees to radians, combined matrix
`scale.multiply(rotZ).multiply(rotY).multiply(rotX)`, every mesh vertex
transformed and then translated componentwise, the cache overwritten
wholesale, and the raw parameters snapshotted. -/
noncomputable def transform (st : Renderer3D) (p : TransformParams) :
    Renderer3D :=
  let DEG_TO_RAD := Real.pi / 180
  let rotX := Matrix4.rotationX (p.rotationX * DEG_TO_RAD)
  let rotY := Matrix4.rotationY (p.rotationY * DEG_TO_RAD)
  let rotZ := Matrix4.rotationZ (p.rotationZ * DEG_TO_RAD)
  let scl := Matrix4.scale p.scaleX p.scaleY p.scaleZ
  let t := ((scl.multiply rotZ).multiply rotY).multiply rotX
  { st with
    transformedVertices :=
      st.shape.vertices.map fun v =>
        let transformed := t.transformVector v
        ⟨transformed.x + p.translateX,
         transformed.y + p.translateY,
         transformed.z + p.translateZ⟩
    snapshot :=
      ⟨⟨p.rotationX, p.rotationY, p.rotationZ⟩,
       ⟨p.translateX, p.translateY, p.translateZ⟩,
       ⟨p.scaleX, p.scaleY, p.scaleZ⟩⟩ }

/-- `_projectVertex(vertex)`: scale factor `f / (f + z)`, projected
coordinates `x * scale`, `y * scale`. -/
noncomputable def projectVertex (st : Renderer3D) (vertex : Vector3) :
    Projected :=
  let scl := st.focalLength / (st.focalLength + vertex.z)
  ⟨vertex.x * scl, vertex.y * scl, scl, vertex.z⟩

/-- The depth of one edge inside `render()`:
`(tv[i].z + tv[j].z) / 2`. JS indexing past the cache produces `undefined`
and reading `.z` throws, so an out-of-range endpoint yields `none`. -/
noncomputable def edgeDepth (tv : List Vector3) (e : ℕ × ℕ) : Option ℝ :=
  match tv[e.1]?, tv[e.2]? with
  | some a, some b => some ((a.z + b.z) / 2)
  | _, _ => none

/-- The `edgesWithDepth` array built inside `render()`: each edge paired
with its average depth; the whole computation throws (yields `none`) as
soon as one edge hits a missing cache entry. -/
noncomputable def edgesWithDepth (tv : List Vector3) : List (ℕ × ℕ) →
    Option (List ((ℕ × ℕ) × ℝ))
  | [] => some []
  | e :: es =>
    match edgeDepth tv e, edgesWithDepth tv es with
    | some d, some rest => some ((e, d) :: rest)
    | _, _ => none

/-- The comparator `(a, b) => a.depth - b.depth` viewed as an order:
non-positive comparator value, i.e. `a.depth ≤ b.depth`. -/
def depthLE (a b : (ℕ × ℕ) × ℝ) : Prop := a.2 ≤ b.2

noncomputable instance : DecidableRel depthLE :=
  fun a b => inferInstanceAs (Decidable (a.2 ≤ b.2))

instance : IsTotal ((ℕ × ℕ) × ℝ) depthLE := ⟨fun a b => le_total a.2 b.2⟩

instance : IsTrans ((ℕ × ℕ) × ℝ) depthLE := ⟨fun _ _ _ => le_trans⟩

/-- The edge-drawing phase of `render()`: build `edgesWithDepth` from the
cached transformed vertices and the active mesh's edge list, sort ascending
by depth (painter's algorithm), and issue the `_drawLine` calls in that
order. The result is the ordered list of drawn edges with their depths;
`none` when the depth computation threw. -/
noncomputable def renderEdgeDraws (st : Renderer3D) :
    Option (List ((ℕ × ℕ) × ℝ)) :=
  (edgesWithDepth st.transformedVertices st.shape.edges).map
    fun l => List.insertionSort depthLE l

end Renderer3D

/- ============================================
   HELPER LEMMAS
   ============================================ -/

/-- Length of a `flatMap` whose pieces all have the same length. -/
theorem length_flatMap_fixed {α β : Type _} :
    ∀ (l : List α) (f : α → List β) (n : ℕ),
      (∀ a ∈ l, (f a).length = n) → (l.flatMap f).length = l.length * n
  | [], _, _, _ => by simp
  | a :: t, f, n, h => by
    have ht := length_flatMap_fixed t f n fun b hb => h b (List.mem_cons_of_mem a hb)
    simp [List.flatMap_cons, h a (List.mem_cons_self a t), ht, Nat.succ_mul,
      Nat.add_comm]

/-- A vector has magnitude `0` exactly when it is the zero vector. -/
theorem Vector3.magnitude_eq_zero {v : Vector3} :
    v.magnitude = 0 ↔ v = ⟨0, 0, 0⟩ := by
  unfold Vector3.magnitude
  rw [Real.sqrt_eq_zero']
  constructor
  · intro h
    have hx : v.x = 0 := by nlinarith [mul_self_nonneg v.x, mul_self_nonneg v.y, mul_self_nonneg v.z]
    have hy : v.y = 0 := by nlinarith [mul_self_nonneg v.x, mul_self_nonneg v.y, mul_self_nonneg v.z]
    have hz : v.z = 0 := by nlinarith [mul_self_nonneg v.x, mul_self_nonneg v.y, mul_self_nonneg v.z]
    cases v
    simp_all
  · intro h
    subst h
    norm_num

/-- Scaling a vector scales its magnitude by the absolute scalar. -/
theorem Vector3.magnitude_scale (v : Vector3) (s : ℝ) :
    (v.scale s).magnitude = |s| * v.magnitude := by
  unfold Vector3.magnitude Vector3.scale
  dsimp only
  rw [show v.x * s * (v.x * s) + v.y * s * (v.y * s) + v.z * s * (v.z * s) =
      s * s * (v.x * v.x + v.y * v.y + v.z * v.z) from by ring,
    Real.sqrt_mul (mul_self_nonneg s), Real.sqrt_mul_self_eq_abs]

/-- An unknown (already lowercased) name misses every branch of the
`Shapes` lookup. -/
theorem Renderer3D.dispatch_eq_none {name : String} (args : List ℝ)
    (h : name ∉ Shapes.shapeKeys) : Renderer3D.dispatch name args = none := by
  simp only [Shapes.shapeKeys, List.mem_cons, List.not_mem_nil, or_false] at h
  push_neg at h
  obtain ⟨h₁, h₂, h₃, h₄, h₅, h₆, h₇, h₈, h₉, h₁₀⟩ := h
  simp [Renderer3D.dispatch, h₁, h₂, h₃, h₄, h₅, h₆, h₇, h₈, h₉, h₁₀]

/-- Unfolding `edgeDepth` on success: both endpoint lookups hit the cache
and the depth is the mean of the two z-values. -/
theorem Renderer3D.edgeDepth_eq_some {tv : List Vector3} {e : ℕ × ℕ}
    {d : ℝ} :
    Renderer3D.edgeDepth tv e = some d ↔
      ∃ a b, tv[e.1]? = some a ∧ tv[e.2]? = some b ∧ d = (a.z + b.z) / 2 := by
  unfold Renderer3D.edgeDepth
  rcases h₁ : tv[e.1]? with _ | a <;> rcases h₂ : tv[e.2]? with _ | b <;>
    simp [eq_comm]

/-- On success, `edgesWithDepth` annotates each edge in order with its
(successfully computed) average depth. -/
theorem Renderer3D.edgesWithDepth_some (tv : List Vector3) :
    ∀ (es : List (ℕ × ℕ)) (l : List ((ℕ × ℕ) × ℝ)),
      Renderer3D.edgesWithDepth tv es = some l →
      l.map Prod.fst = es ∧
      ∀ p ∈ l, Renderer3D.edgeDepth tv p.1 = some p.2 := by
  intro es
  induction es with
  | nil =>
    intro l h
    simp only [Renderer3D.edgesWithDepth, Option.some_inj] at h
    subst h
    simp
  | cons e es ih =>
    intro l h
    unfold Renderer3D.edgesWithDepth at h
    rcases hd : Renderer3D.edgeDepth tv e with _ | d <;> rw [hd] at h
    · exact absurd h (by simp)
    rcases ht : Renderer3D.edgesWithDepth tv es with _ | rest <;> rw [ht] at h
    · exact absurd h (by simp)
    rw [Option.some_inj] at h
    subst h
    obtain ⟨h₁, h₂⟩ := ih rest ht
    refine ⟨by simp [h₁], ?_⟩
    intro p hp
    rcases List.mem_cons.mp hp with hp | hp
    · subst hp
      exact hd
    · exact h₂ p hp

/-- As soon as one edge's depth computation throws, the whole
`edgesWithDepth` map throws. -/
theorem Renderer3D.edgesWithDepth_none (tv : List Vector3) {e : ℕ × ℕ} :
    ∀ {es : List (ℕ × ℕ)}, e ∈ es → Renderer3D.edgeDepth tv e = none →
      Renderer3D.edgesWithDepth tv es = none := by
  intro es
  induction es with
  | nil =>
    intro he _
    exact absurd he (List.not_mem_nil e)
  | cons a es ih =>
    intro he hd
    unfold Renderer3D.edgesWithDepth
    rcases List.mem_cons.mp he with rfl | he'
    · rw [hd]
    · rw [ih he' hd]
      rcases Renderer3D.edgeDepth tv a with _ | d <;> rfl

/-- An edge endpoint beyond the cache length makes the depth computation
throw. -/
theorem Renderer3D.edgeDepth_oob (tv : List Vector3) (e : ℕ × ℕ)
    (h : tv.length ≤ e.1 ∨ tv.length ≤ e.2) :
    Renderer3D.edgeDepth tv e = none := by
  unfold Renderer3D.edgeDepth
  rcases h with h | h
  · rw [List.getElem?_eq_none h]
  · rw [List.getElem?_eq_none h]
    rcases tv[e.1]? with _ | a <;> rfl

/-- A list that is a permutation of a three-element list with strictly
increasing key values, and that is itself sorted by those keys, is exactly
that three-element list. -/
theorem eq_of_perm_sorted3 {α : Type _} (d : α → ℝ) (a b c : α) :
    ∀ l : List α, l.Perm [a, b, c] →
      l.Pairwise (fun p q => d p ≤ d q) →
      d a < d b → d b < d c → l = [a, b, c] := by
  intro l hp hs h₁ h₂
  have hlen : l.length = 3 := hp.length_eq
  rcases l with _ | ⟨x, _ | ⟨y, _ | ⟨z, _ | t⟩⟩⟩ <;>
    simp only [List.length_nil, List.length_cons] at hlen <;> try omega
  clear hlen
  have hxy : d x ≤ d y := (List.pairwise_cons.mp hs).1 y (by simp)
  have hxz : d x ≤ d z := (List.pairwise_cons.mp hs).1 z (by simp)
  have hyz : d y ≤ d z :=
    (List.pairwise_cons.mp (List.pairwise_cons.mp hs).2).1 z (by simp)
  have hx : x ∈ [a, b, c] := hp.subset (List.mem_cons_self x _)
  have ha : a ∈ [x, y, z] := hp.symm.subset (List.mem_cons_self a _)
  have hxa_le : d x ≤ d a := by
    rcases List.mem_cons.mp ha with h | ha'
    · exact le_of_eq (congrArg d h).symm
    rcases List.mem_cons.mp ha' with h | ha''
    · exact le_trans hxy (le_of_eq (congrArg d h).symm)
    · exact le_trans hxz
        (le_of_eq (congrArg d (List.mem_singleton.mp ha'')).symm)
  have hxa : x = a := by
    rcases List.mem_cons.mp hx with h | hx'
    · exact h
    exfalso
    rcases List.mem_cons.mp hx' with h | hx''
    · have hdx : d x = d b := congrArg d h
      linarith
    · have hdx : d x = d c := congrArg d (List.mem_singleton.mp hx'')
      linarith
  subst hxa
  have hp' : List.Perm [y, z] [b, c] := hp.cons_inv
  have hy : y ∈ [b, c] := hp'.subset (List.mem_cons_self y _)
  rcases List.mem_cons.mp hy with hyb | hy'
  · rw [hyb] at hp'
    have hz := hp'.cons_inv
    rw [List.perm_singleton, List.cons.injEq] at hz
    rw [hyb, hz.1]
  · have hyc := List.mem_singleton.mp hy'
    have hb : b ∈ [y, z] := hp'.symm.subset (List.mem_cons_self b _)
    exfalso
    rcases List.mem_cons.mp hb with hby | hb'
    · have := congrArg d (hby.trans hyc)
      linarith
    · have hbz := List.mem_singleton.mp hb'
      have h₃ := congrArg d hyc
      have h₄ := congrArg d hbz
      linarith

/- ============================================
   CLAIM THEOREMS
   ============================================ -/

/-- **C2**: every matrix produced by the provided constructors — `translate`
applied to a constructed matrix, `rotationX/Y/Z(angle)`, and
`scale(sx, sy, sz)` (and the fresh identity they all start from) — has
bottom row `[0, 0, 0, 1]` in the 4x4 layout in which `transformVector`
applies it (translation in slots 12-14, bottom row in slots 3, 7, 11, 15),
so every constructed matrix is affine. -/
theorem constructed_matrices_affine_bottom_row
    (m : Matrix4) (h : m.Constructed) : m.bottomRow = (0, 0, 0, 1) := by
  induction h with
  | identity => rfl
  | rotationX angle => rfl
  | rotationY angle => rfl
  | rotationZ angle => rfl
  | scale sx sy sz => rfl
  | translate m x y z _ ih => exact ih

/-- Witness for C2 at a concrete constructed matrix. -/
theorem constructed_matrices_affine_bottom_row_witness :
    (Matrix4.scale 2 3 4).bottomRow = (0, 0, 0, 1) :=
  constructed_matrices_affine_bottom_row _ (Matrix4.Constructed.scale 2 3 4)

/-- **C4** (counterexample): `'constructor'` is a shape name outside the
shape set (and `setShape('CONSTRUCTOR', ...)` reaches it case-insensitively
too), yet `setShape('constructor', 100)` does NOT take the warn branch: the
bracket lookup finds the `constructor` property `Shapes` inherits from
`Object.prototype` — the `Object` function, which passes the truthiness
guard — so the active mesh is replaced by `Object(100)` (a non-mesh value)
and no diagnostic is emitted, contradicting the claimed
no-mutation-plus-diagnostic behaviour. -/
theorem setShape_constructor_silently_mutates :
    Renderer3D.jsToLowerCase "constructor" ∉ Shapes.shapeKeys ∧
    Renderer3D.setShapeJS Renderer3D.init "constructor" [100] =
      Renderer3D.SetShapeEffect.replacedJunk := by
  refine ⟨by decide, ?_⟩
  have h1 : Renderer3D.jsToLowerCase "constructor" = "constructor" := by decide
  unfold Renderer3D.setShapeJS Renderer3D.shapesGet
  rw [h1, Renderer3D.dispatch_eq_none [100] (by decide)]
  rfl

/-- **C4** (amended): for every engine state and every shape name whose
lowercased form is neither in the shape set nor one of the two
`Object.prototype` properties the bracket lookup can still reach after
lowercasing (`constructor` and `__proto__`), `setShape` leaves the state
completely unchanged — no field is mutated, in particular neither the
active mesh nor the transformed-vertex cache — and reports the non-fatal
`console.warn` diagnostic; on `constructor` it instead silently replaces
the active mesh with the non-mesh `Object(...args)`, and on `__proto__` it
throws a `TypeError` instead of warning. -/
theorem setShape_unknown_name_amended :
    (∀ (st : Renderer3D) (shapeName : String) (args : List ℝ),
      Renderer3D.jsToLowerCase shapeName ∉ Shapes.shapeKeys →
      Renderer3D.jsToLowerCase shapeName ≠ "constructor" →
      Renderer3D.jsToLowerCase shapeName ≠ "__proto__" →
      st.setShapeJS shapeName args = Renderer3D.SetShapeEffect.warnedUnchanged st) ∧
    (∀ (st : Renderer3D) (args : List ℝ),
      st.setShapeJS "constructor" args = Renderer3D.SetShapeEffect.replacedJunk) ∧
    (∀ (st : Renderer3D) (args : List ℝ),
      st.setShapeJS "__proto__" args = Renderer3D.SetShapeEffect.typeError) := by
  refine ⟨?_, ?_, ?_⟩
  · intro st shapeName args h h₁ h₂
    unfold Renderer3D.setShapeJS Renderer3D.shapesGet
    rw [Renderer3D.dispatch_eq_none args h, if_neg h₁, if_neg h₂]
  · intro st args
    have h1 : Renderer3D.jsToLowerCase "constructor" = "constructor" := by
      decide
    unfold Renderer3D.setShapeJS Renderer3D.shapesGet
    rw [h1, Renderer3D.dispatch_eq_none args (by decide)]
    rfl
  · intro st args
    have h1 : Renderer3D.jsToLowerCase "__proto__" = "__proto__" := by decide
    unfold Renderer3D.setShapeJS Renderer3D.shapesGet
    rw [h1, Renderer3D.dispatch_eq_none args (by decide),
      if_neg (by decide : ("__proto__" : String) ≠ "constructor")]
    rfl

/-- Witness for the amended C4: `setShape('icosahedron')` on the freshly
constructed engine warns and leaves the state untouched. -/
theorem setShape_unknown_name_amended_witness :
    Renderer3D.setShapeJS Renderer3D.init "icosahedron" [] =
      Renderer3D.SetShapeEffect.warnedUnchanged Renderer3D.init :=
  setShape_unknown_name_amended.1 _ _ _ (by decide) (by decide) (by decide)

/-- **C5**: `_projectVertex` produces scale factor `f / (f + z)` and
projected coordinates `(x * scale, y * scale)` for the engine's configured
focal length `f`, and the `focalLength` setter clamps with `Math.max(1, ·)`
so the stored focal length is always at least `1`. -/
theorem projectVertex_formula_focal_clamped :
    (∀ (st : Renderer3D) (v : Vector3),
      st.projectVertex v =
        ⟨v.x * (st.focalLength / (st.focalLength + v.z)),
         v.y * (st.focalLength / (st.focalLength + v.z)),
         st.focalLength / (st.focalLength + v.z),
         v.z⟩) ∧
    (∀ (st : Renderer3D) (value : ℝ),
      (st.setFocalLength value).focalLength = max 1 value ∧
      1 ≤ (st.setFocalLength value).focalLength) :=
  ⟨fun _ _ => rfl, fun _ _ => ⟨rfl, le_max_left 1 _⟩⟩

/-- Vertex and edge counts of the parametric torus. -/
theorem Shapes.torus_counts (majorRadius minorRadius : ℝ)
    (majorSegments minorSegments : ℕ) :
    (Shapes.torus majorRadius minorRadius majorSegments
      minorSegments).vertices.length = majorSegments * minorSegments ∧
    (Shapes.torus majorRadius minorRadius majorSegments
      minorSegments).edges.length =
        2 * (majorSegments * minorSegments) := by
  constructor
  · refine (length_flatMap_fixed _ _ minorSegments ?_).trans ?_
    · intro i _
      exact (List.length_map _ _).trans (List.length_range _)
    · rw [List.length_range]
  · refine (length_flatMap_fixed _ _ (minorSegments * 2) ?_).trans ?_
    · intro i _
      refine (length_flatMap_fixed _ _ 2 ?_).trans ?_
      · intro j _
        rfl
      · rw [List.length_range]
    · rw [List.length_range]
      ring

/-- **C6**: `cube` always has 8 vertices and 12 edges, `dodecahedron`
always has 20 vertices and 30 edges, and `torus` has
`majorSegments * minorSegments` vertices and two edges per sample
(`2 * majorSegments * minorSegments` edges) — in particular 128 vertices
and 256 edges at the default segment counts 16 and 8. -/
theorem generator_counts :
    (∀ size : ℝ, (Shapes.cube size).vertices.length = 8 ∧
      (Shapes.cube size).edges.length = 12) ∧
    (∀ size : ℝ, (Shapes.dodecahedron size).vertices.length = 20 ∧
      (Shapes.dodecahedron size).edges.length = 30) ∧
    (∀ (majorRadius minorRadius : ℝ) (majorSegments minorSegments : ℕ),
      (Shapes.torus majorRadius minorRadius majorSegments
        minorSegments).vertices.length = majorSegments * minorSegments ∧
      (Shapes.torus majorRadius minorRadius majorSegments
        minorSegments).edges.length = 2 * (majorSegments * minorSegments)) ∧
    (∀ majorRadius minorRadius : ℝ,
      (Shapes.torus majorRadius minorRadius 16 8).vertices.length = 128 ∧
      (Shapes.torus majorRadius minorRadius 16 8).edges.length = 256) := by
  refine ⟨fun size => ⟨rfl, rfl⟩, fun size => ⟨rfl, rfl⟩,
    Shapes.torus_counts, fun R r => ?_⟩
  have h := Shapes.torus_counts R r 16 8
  exact ⟨by rw [h.1], by rw [h.2]⟩

/-- **C7**: `normalize(v)` has magnitude `1` whenever `v` is not the zero
vector, and `normalize` of the zero vector is the zero vector (the `mag
=== 0` guard returns `new Vector3()` instead of dividing by zero);
`normalize` is a total function — it never fails. -/
theorem normalize_magnitude_one_or_zero :
    (∀ v : Vector3, v ≠ ⟨0, 0, 0⟩ → v.normalize.magnitude = 1) ∧
    (Vector3.normalize ⟨0, 0, 0⟩ = ⟨0, 0, 0⟩) := by
  constructor
  · intro v hv
    have hmag : v.magnitude ≠ 0 := fun h => hv (Vector3.magnitude_eq_zero.mp h)
    have hmpos : 0 < v.magnitude :=
      lt_of_le_of_ne (Real.sqrt_nonneg _) (Ne.symm hmag)
    unfold Vector3.normalize
    rw [if_neg hmag, Vector3.magnitude_scale,
      abs_of_pos (by positivity : (0 : ℝ) < 1 / v.magnitude)]
    field_simp
  · unfold Vector3.normalize
    rw [if_pos]
    unfold Vector3.magnitude
    norm_num

/-- Witness for C7 at the concrete non-zero vector `(3, 4, 0)`. -/
theorem normalize_magnitude_one_or_zero_witness :
    (Vector3.normalize ⟨3, 4, 0⟩).magnitude = 1 :=
  normalize_magnitude_one_or_zero.1 ⟨3, 4, 0⟩ (by
    intro h
    rw [Vector3.mk.injEq] at h
    norm_num at h)

/-- **C8**: for every angle and every vector, applying `transformVector`
of a matrix built by any single rotation constructor (`rotationX`,
`rotationY` or `rotationZ`) preserves the vector's magnitude — every
rotation-constructor matrix is orthogonal. -/
theorem rotation_preserves_magnitude (angle : ℝ) (v : Vector3) :
    ((Matrix4.rotationX angle).transformVector v).magnitude = v.magnitude ∧
    ((Matrix4.rotationY angle).transformVector v).magnitude = v.magnitude ∧
    ((Matrix4.rotationZ angle).transformVector v).magnitude = v.magnitude := by
  have h := Real.sin_sq_add_cos_sq angle
  refine ⟨?_, ?_, ?_⟩
  · unfold Matrix4.rotationX Matrix4.identity Matrix4.transformVector
      Vector3.magnitude
    congr 1
    dsimp only
    linear_combination (v.y * v.y + v.z * v.z) * h
  · unfold Matrix4.rotationY Matrix4.identity Matrix4.transformVector
      Vector3.magnitude
    congr 1
    dsimp only
    linear_combination (v.x * v.x + v.z * v.z) * h
  · unfold Matrix4.rotationZ Matrix4.identity Matrix4.transformVector
      Vector3.magnitude
    congr 1
    dsimp only
    linear_combination (v.x * v.x + v.y * v.y) * h

/-- **C9**: `depthColor(z, minZ, maxZ)` computes the unclamped
normalization `n = (z - minZ) / (maxZ - minZ)` (nothing restricts `n` to
`[0, 1]`) and returns `hslToHex(200 + 60 n, 80, 30 + 40 n)`; in particular
`depthColor(0, -200, 200)` is the midpoint color `hslToHex(230, 80, 50)`.
-/
theorem depthColor_formula :
    (∀ z minZ maxZ : ℚ, minZ < maxZ →
      ColorUtils.depthColor z minZ maxZ =
        ColorUtils.hslToHex (200 + (z - minZ) / (maxZ - minZ) * 60) 80
          (30 + (z - minZ) / (maxZ - minZ) * 40)) ∧
    ColorUtils.depthColor 0 (-200) 200 = ColorUtils.hslToHex 230 80 50 := by
  constructor
  · intro z minZ maxZ _
    rfl
  · unfold ColorUtils.depthColor
    norm_num

/-- Witness for C9 at concrete bounds `minZ = 0 < maxZ = 2`, `z = 1`. -/
theorem depthColor_formula_witness :
    ColorUtils.depthColor 1 0 2 =
      ColorUtils.hslToHex (200 + (1 - 0) / (2 - 0) * 60) 80
        (30 + (1 - 0) / (2 - 0) * 40) :=
  depthColor_formula.1 1 0 2 (by norm_num)

/-- After `setShape('cube', 100)` the engine holds the fresh cube mesh and
the untouched empty cache. -/
theorem setShape_cube_100 :
    (Renderer3D.init.setShape "cube" [100]).1 =
      { Renderer3D.init with shape := Shapes.cube 100 } := by
  have h1 : Renderer3D.jsToLowerCase "cube" = "cube" := by decide
  unfold Renderer3D.setShape
  rw [h1]
  unfold Renderer3D.dispatch
  simp [List.getD]

/-- Evaluating the whole `setShape('cube', 100)`; `transform({rotationY:
90})` pipeline at the vertex originally at `(100, 100, 100)` (vertex index
0 of the cube): the combined matrix is `rotationY(π/2)` and
`transformVector` sends the vertex to `(−100, 100, 100)`. -/
theorem transform_cube_rotY90_vertex0 :
    ((Renderer3D.init.setShape "cube" [100]).1.transform
        { rotationY := 90 }).transformedVertices[0]? =
      some ⟨-100, 100, 100⟩ := by
  rw [setShape_cube_100]
  have e0 : (0 : ℝ) * (Real.pi / 180) = 0 := by ring
  have e90 : (90 : ℝ) * (Real.pi / 180) = Real.pi / 2 := by ring
  unfold Renderer3D.transform
  dsimp only
  rw [e0, e90]
  unfold Shapes.cube Matrix4.scale Matrix4.rotationX Matrix4.rotationY
    Matrix4.rotationZ Matrix4.identity Matrix4.multiply Matrix4.transformVector
  simp [Real.cos_zero, Real.sin_zero, Real.cos_pi_div_two, Real.sin_pi_div_two]

/-- **C1** (counterexample): after `setShape('cube', 100)` and
`transform({rotationY: 90})` the transformed vertex originally at
`(100, 100, 100)` is exactly `(−100, 100, 100)` — not approximately
`(100, 100, −100)` as the claim states (the two differ by 200 in both the
x and z coordinates, far outside any floating tolerance). -/
theorem rotationY_scenario_claim_false :
    ((Renderer3D.init.setShape "cube" [100]).1.transform
        { rotationY := 90 }).transformedVertices[0]? =
      some ⟨-100, 100, 100⟩ ∧
    ¬ Vector3.close ⟨-100, 100, 100⟩ ⟨100, 100, -100⟩ 1 := by
  refine ⟨transform_cube_rotY90_vertex0, ?_⟩
  intro h
  obtain ⟨hx, -, -⟩ := h
  rw [show |(-100 : ℝ) - 100| = 200 from by norm_num] at hx
  norm_num at hx

/-- **C1** (amended): the rotation constructors applied through
`transformVector` are the standard right-handed rotations evaluated at the
NEGATED angle — a positive angle rotates clockwise when viewed from the
positive axis toward the origin (the stored matrix is the transpose of the
standard one and `transformVector` multiplies the point in on the left);
consequently the scenario's transformed vertex is `(−100, 100, 100)`
rather than `(100, 100, −100)`. -/
theorem rotation_constructors_rotate_clockwise :
    (((Renderer3D.init.setShape "cube" [100]).1.transform
        { rotationY := 90 }).transformedVertices[0]? =
      some ⟨-100, 100, 100⟩) ∧
    (∀ (angle : ℝ) (v : Vector3),
      (Matrix4.rotationX angle).transformVector v = specRotationX (-angle) v ∧
      (Matrix4.rotationY angle).transformVector v = specRotationY (-angle) v ∧
      (Matrix4.rotationZ angle).transformVector v = specRotationZ (-angle) v) := by
  refine ⟨transform_cube_rotY90_vertex0, fun angle v => ⟨?_, ?_, ?_⟩⟩
  · unfold Matrix4.rotationX Matrix4.identity Matrix4.transformVector
      specRotationX
    rw [Vector3.mk.injEq]
    refine ⟨by ring, ?_, ?_⟩
    · rw [Real.cos_neg, Real.sin_neg]
      ring
    · rw [Real.cos_neg, Real.sin_neg]
      ring
  · unfold Matrix4.rotationY Matrix4.identity Matrix4.transformVector
      specRotationY
    rw [Vector3.mk.injEq]
    refine ⟨?_, by ring, ?_⟩
    · rw [Real.cos_neg, Real.sin_neg]
      ring
    · rw [Real.cos_neg, Real.sin_neg]
      ring
  · unfold Matrix4.rotationZ Matrix4.identity Matrix4.transformVector
      specRotationZ
    rw [Vector3.mk.injEq]
    refine ⟨?_, ?_, by ring⟩
    · rw [Real.cos_neg, Real.sin_neg]
      ring
    · rw [Real.cos_neg, Real.sin_neg]
      ring

/-- **C3**: whenever `render()` reaches the edge-drawing phase
successfully, the drawn-edge list is a permutation of the mesh's edge
list, each drawn edge carries the mean of its two endpoints' z-values in
transformed (pre-projection) space as its depth, and the draw calls are
issued in ascending depth order; in particular a mesh with exactly three
edges of distinct average depths `d₁ < d₂ < d₃` is drawn in the order
`d₁, d₂, d₃`. -/
theorem render_depth_sort_ascending :
    (∀ (st : Renderer3D) (l : List ((ℕ × ℕ) × ℝ)),
      st.renderEdgeDraws = some l →
      (l.map Prod.fst).Perm st.shape.edges ∧
      l.Pairwise Renderer3D.depthLE ∧
      ∀ p ∈ l, ∃ a b,
        st.transformedVertices[p.1.1]? = some a ∧
        st.transformedVertices[p.1.2]? = some b ∧
        p.2 = (a.z + b.z) / 2) ∧
    (∀ (st : Renderer3D) (e₁ e₂ e₃ : ℕ × ℕ) (d₁ d₂ d₃ : ℝ),
      st.shape.edges = [e₁, e₂, e₃] →
      Renderer3D.edgeDepth st.transformedVertices e₁ = some d₁ →
      Renderer3D.edgeDepth st.transformedVertices e₂ = some d₂ →
      Renderer3D.edgeDepth st.transformedVertices e₃ = some d₃ →
      d₁ < d₂ → d₂ < d₃ →
      st.renderEdgeDraws = some [(e₁, d₁), (e₂, d₂), (e₃, d₃)]) := by
  constructor
  · intro st l h
    unfold Renderer3D.renderEdgeDraws at h
    rw [Option.map_eq_some'] at h
    obtain ⟨l₀, h₀, rfl⟩ := h
    obtain ⟨hfst, hdep⟩ :=
      Renderer3D.edgesWithDepth_some st.transformedVertices _ _ h₀
    have hperm := List.perm_insertionSort Renderer3D.depthLE l₀
    refine ⟨?_, ?_, ?_⟩
    · rw [← hfst]
      exact hperm.map Prod.fst
    · exact List.sorted_insertionSort Renderer3D.depthLE l₀
    · intro p hp
      have hp₀ : p ∈ l₀ := hperm.subset hp
      exact Renderer3D.edgeDepth_eq_some.mp (hdep p hp₀)
  · intro st e₁ e₂ e₃ d₁ d₂ d₃ hes h₁ h₂ h₃ h₁₂ h₂₃
    have h₀ : Renderer3D.edgesWithDepth st.transformedVertices
        st.shape.edges = some [(e₁, d₁), (e₂, d₂), (e₃, d₃)] := by
      rw [hes]
      unfold Renderer3D.edgesWithDepth
      rw [h₁]
      unfold Renderer3D.edgesWithDepth
      rw [h₂]
      unfold Renderer3D.edgesWithDepth
      rw [h₃]
      rfl
    unfold Renderer3D.renderEdgeDraws
    rw [h₀, Option.map_some']
    rw [Option.some_inj]
    exact eq_of_perm_sorted3 Prod.snd (e₁, d₁) (e₂, d₂) (e₃, d₃) _
      (List.perm_insertionSort Renderer3D.depthLE _)
      (List.sorted_insertionSort Renderer3D.depthLE _) h₁₂ h₂₃

/-- Witness for C3: three edges whose averaged depths are `1 < 3 < 5` are
drawn in exactly that order. -/
theorem render_depth_sort_ascending_witness :
    Renderer3D.renderEdgeDraws
        { focalLength := 3000
          shape := { vertices := [], edges := [(0, 1), (1, 2), (2, 3)],
                     faces := [], name := "T" }
          transformedVertices := [⟨0, 0, 0⟩, ⟨0, 0, 2⟩, ⟨0, 0, 4⟩, ⟨0, 0, 6⟩]
          snapshot := ⟨⟨0, 0, 0⟩, ⟨0, 0, 0⟩, ⟨1, 1, 1⟩⟩ } =
      some [((0, 1), 1), ((1, 2), 3), ((2, 3), 5)] :=
  render_depth_sort_ascending.2 _ (0, 1) (1, 2) (2, 3) 1 3 5 rfl
    (by norm_num [Renderer3D.edgeDepth])
    (by norm_num [Renderer3D.edgeDepth])
    (by norm_num [Renderer3D.edgeDepth])
    (by norm_num) (by norm_num)

/-- **C10** (implicit): when the transformed-vertex cache misses a vertex
index referenced by the active mesh's edges, the edge-depth computation
inside `render()` indexes past the end of the cache (the lookup yields no
vertex, so the JS code throws) and no draw list is produced; the freshly
constructed engine (default cube mesh, empty cache) is such a state, and
`setShape` — which replaces the mesh but leaves the stale cache — creates
such a state whenever the new mesh references more vertices than the cache
holds. A `transform` call is required before `render` can draw. -/
theorem render_stale_cache_yields_no_frame :
    (∀ st : Renderer3D,
      (∃ e ∈ st.shape.edges,
        st.transformedVertices.length ≤ e.1 ∨
        st.transformedVertices.length ≤ e.2) →
      st.renderEdgeDraws = none) ∧
    (Renderer3D.init.transformedVertices = [] ∧
     Renderer3D.init.shape = Shapes.cube 100 ∧
     Renderer3D.init.renderEdgeDraws = none) ∧
    (∀ (st : Renderer3D) (shapeName : String) (args : List ℝ) (m : Mesh),
      Renderer3D.dispatch (Renderer3D.jsToLowerCase shapeName) args = some m →
      (st.setShape shapeName args).1.shape = m ∧
      (st.setShape shapeName args).1.transformedVertices =
        st.transformedVertices) := by
  have key : ∀ st : Renderer3D,
      (∃ e ∈ st.shape.edges,
        st.transformedVertices.length ≤ e.1 ∨
        st.transformedVertices.length ≤ e.2) →
      st.renderEdgeDraws = none := by
    intro st ⟨e, he, hoob⟩
    unfold Renderer3D.renderEdgeDraws
    rw [Option.map_eq_none']
    exact Renderer3D.edgesWithDepth_none st.transformedVertices he
      (Renderer3D.edgeDepth_oob st.transformedVertices e hoob)
  refine ⟨key, ⟨rfl, rfl, ?_⟩, ?_⟩
  · exact key Renderer3D.init ⟨(0, 1), by decide, Or.inl (by decide)⟩
  · intro st shapeName args m h
    unfold Renderer3D.setShape
    rw [h]
    exact ⟨rfl, rfl⟩

/-- Witness for C10: the freshly constructed engine — cube mesh with edge
`(0, 1)`, empty cache — produces no draw list. -/
theorem render_stale_cache_yields_no_frame_witness :
    Renderer3D.init.renderEdgeDraws = none :=
  render_stale_cache_yields_no_frame.1 Renderer3D.init
    ⟨(0, 1), by decide, Or.inl (by decide)⟩

end Renderer
